import Mathlib

/-
Shallow embedding of the JOJ-Submitter submission tracking engine
(src/joj_submitter/__main__.py).

The HTML documents the tool fetches are modelled abstractly: a result page
is the data the markup queries of get_status can extract from it (overall
status span text, the summary dd texts, the optional compiler-text block,
the optional case-table container with its rows), and a per-case detail page
is the list of its pre.compiler-text block texts.  Network effects are
modelled by passing fetcher functions explicitly and returning the list of
URLs fetched / POST requests issued; Python exceptions (AssertionError,
AttributeError on None, IndexError) are modelled by Except String.
-/

/-- Characters removed by the strip method of Python str (ASCII whitespace). -/
def isSpaceChar (c : Char) : Bool :=
  c == ' ' || c == '\t' || c == '\n' || c == '\r' || c == '\x0b' || c == '\x0c'

/-- Python str.strip on the character list: drop whitespace at both ends. -/
def pyStripList (l : List Char) : List Char :=
  ((l.dropWhile isSpaceChar).reverse.dropWhile isSpaceChar).reverse

/-- Python str.strip. -/
def pyStrip (s : String) : String := (pyStripList s.toList).asString

/-- Python str.replace for the fixed pattern used by get_status:
every non-overlapping occurrence of "ms", scanned left to right,
becomes " ms" (lines 111 and 122-127 of the source). -/
def replaceMsCore : List Char → List Char
  | [] => []
  | [c] => [c]
  | c :: c2 :: rest =>
    if c = 'm' ∧ c2 = 's' then ' ' :: 'm' :: 's' :: replaceMsCore rest
    else c :: replaceMsCore (c2 :: rest)

/-- String wrapper for replaceMsCore. -/
def pyReplaceMs (s : String) : String := (replaceMsCore s.toList).asString

/-- Python str.endswith. -/
def pyEndsWith (s suffix : String) : Bool := suffix.toList.isSuffixOf s.toList

/-- True when the list of characters contains no occurrence of "ms". -/
def msFree : List Char → Bool
  | [] => true
  | [_] => true
  | c :: c2 :: rest => if c = 'm' ∧ c2 = 's' then false else msFree (c2 :: rest)

/-- The string ends in " ms" and the space separating the numeral from the
unit is exactly one (the character before it, if any, is not a space). -/
def endsInOneSpaceMs (s : String) : Bool :=
  match s.toList.reverse with
  | c1 :: c2 :: c3 :: rest =>
    c1 == 's' && c2 == 'm' && c3 == ' ' && !(rest.head? == some ' ')
  | _ => false

/-- One per-case result, the Detail pydantic model of the source. -/
structure Detail where
  status : String
  extra_info : String
  time_cost : String
  memory_cost : String
  stderr : String
  out : String
  ans : String
deriving Repr, DecidableEq

/-- The Record pydantic model of the source. -/
structure Record where
  status : String
  accepted_count : Nat
  score : String
  total_time : String
  peak_memory : String
  details : List Detail
  compiler_text : String
deriving Repr, DecidableEq

/-- The status cell (td.col--status.typo) of one case row: the texts of its
span descendants in document order, and the href of its first anchor if one
is present. -/
structure StatusCell where
  spans : List String
  link : Option String
deriving Repr, DecidableEq

/-- One tr of the case-result table: its status cell and the raw texts of
its td.col--time and td.col--memory cells. -/
structure CaseRow where
  statusCell : StatusCell
  timeText : String
  memoryText : String
deriving Repr, DecidableEq

/-- One fetched evaluation-record page, as seen by the markup queries of
get_status: the raw overall-status span text, the texts of the dd items of
the summary list, the text of the .compiler-text block when that block is
present, and the rows of the case table when the
div.section__body.no-padding container is present. -/
structure ResultDoc where
  overallStatus : String
  summaries : List String
  compilerText : Option String
  caseBody : Option (List CaseRow)
deriving Repr, DecidableEq

/-- One fetched per-case detail page: the texts of its pre.compiler-text
blocks in document order. -/
structure DetailDoc where
  compilerTexts : List String
deriving Repr, DecidableEq

/-- The fixed origin prefixed to per-case detail hrefs (source line 131). -/
def baseOrigin : String := "https://joj.sjtu.edu.cn"

/-- The in-progress overall-status values of the polling loop (line 104). -/
def inProgressStatuses : List String := ["Waiting", "Compiling", "Fetched", "Running"]

/-- Membership test of the polling loop condition. -/
def inProgress (s : String) : Bool := inProgressStatuses.contains s

/-- The body of the for loop over table rows (source lines 117-159) for one
row.  fd maps a detail-page URL to the fetched detail document.  Returns the
Detail built for the row together with the list of detail URLs fetched, or
the Python exception the row raises: IndexError when the status cell has
fewer than two spans, and IndexError when a followed detail page carries
fewer than three pre.compiler-text blocks. -/
def processRow (fd : String → DetailDoc) (row : CaseRow) :
    Except String (Detail × List String) :=
  match row.statusCell.spans.get? 1 with
  | none => Except.error "IndexError"
  | some span1 =>
    let detail_status := pyStrip span1
    let time_cost := pyReplaceMs (pyStrip row.timeText)
    let memory_cost := pyStrip row.memoryText
    match row.statusCell.link with
    | none =>
      Except.ok ({ status := detail_status, extra_info := "", time_cost := time_cost,
                   memory_cost := memory_cost, stderr := "", out := "", ans := "" }, [])
    | some href =>
      let detail_url := baseOrigin ++ href
      let ddoc := fd detail_url
      match ddoc.compilerTexts.get? 0, ddoc.compilerTexts.get? 1, ddoc.compilerTexts.get? 2 with
      | some t0, some t1, some t2 =>
        let extra0 := if 3 ≤ row.statusCell.spans.length
          then pyStrip ((row.statusCell.spans.get? 2).getD "") else ""
        let extra_info := if extra0 ≠ "" then " " ++ extra0 else extra0
        Except.ok ({ status := detail_status, extra_info := extra_info, time_cost := time_cost,
                     memory_cost := memory_cost, stderr := pyStrip t0, out := pyStrip t1,
                     ans := pyStrip t2 }, [detail_url])
      | _, _, _ => Except.error "IndexError"

/-- The whole for loop over the case rows: the Detail list in row order, the
accepted-count tally (line 121), and all detail URLs fetched. -/
def aggregateRows (fd : String → DetailDoc) : List CaseRow → Except String (List Detail × Nat × List String)
  | [] => Except.ok ([], 0, [])
  | r :: rs =>
    match processRow fd r with
    | Except.error e => Except.error e
    | Except.ok (d, us) =>
      match aggregateRows fd rs with
      | Except.error e => Except.error e
      | Except.ok (ds, cnt, us2) =>
        Except.ok (d :: ds, (if d.status == "Accepted" then 1 else 0) + cnt, us ++ us2)

/-- The Record assembled by get_status together with the detail URLs fetched
while assembling it. -/
structure AggResult where
  record : Record
  fetched : List String
deriving Repr, DecidableEq

/-- The aggregation step of get_status (source lines 108-168), applied to
the final document of the polling loop.  Faithful to the evaluation order of
the Python code: summaries[1] is read first (IndexError when the summary
list has fewer than two entries), then the .compiler-text block (an
AttributeError when the block is absent, since select_one returns None),
then the rows (an absent table container yields the empty row list), and
finally summaries[0] and summaries[2]. -/
def aggregate (fd : String → DetailDoc) (doc : ResultDoc) : Except String AggResult :=
  let status := pyStrip doc.overallStatus
  match doc.summaries.get? 1 with
  | none => Except.error "IndexError"
  | some s1 =>
    let total_time := pyReplaceMs s1
    match doc.compilerText with
    | none => Except.error "AttributeError"
    | some ct =>
      let compiler_text := pyStrip ct
      let rows := doc.caseBody.getD []
      match aggregateRows fd rows with
      | Except.error e => Except.error e
      | Except.ok (details, accepted_count, fetched) =>
        match doc.summaries.get? 0, doc.summaries.get? 2 with
        | some s0, some s2 =>
          Except.ok { record := { status := status, accepted_count := accepted_count,
                                  score := s0, total_time := total_time, peak_memory := s2,
                                  details := details, compiler_text := compiler_text },
                      fetched := fetched }
        | _, _ => Except.error "IndexError"

/-- The polling loop of get_status (source lines 94-107) over the sequence
of documents successive fetches of the record URL return.  Returns the first
document whose stripped overall status is outside the in-progress set,
together with the number of time.sleep(1) calls executed before it was
fetched (one per in-progress document seen, so the Nat is both the index of
the returned document and the total units slept).  none models the loop
never terminating because every fetch stays in progress. -/
def pollLoop : List ResultDoc → Option (ResultDoc × Nat)
  | [] => none
  | d :: rest =>
    if inProgress (pyStrip d.overallStatus) then
      (pollLoop rest).map (fun p => (p.1, p.2 + 1))
    else
      some (d, 0)

/-- get_status: poll until a terminal document, then aggregate it.  The Nat
is the sleep count of the polling loop. -/
def get_status (seq : List ResultDoc) (fd : String → DetailDoc) :
    Option (Except String AggResult × Nat) :=
  (pollLoop seq).map (fun p => (aggregate fd p.1, p.2))

/-- The csrf-token input node, with its value attribute when present. -/
structure InputNode where
  value : Option String
deriving Repr, DecidableEq

/-- The document of the submission endpoint, as seen by upload_file:
the input node named csrf_token when one exists. -/
structure ProblemPage where
  csrfInput : Option InputNode
deriving Repr, DecidableEq

/-- One POST request issued by upload_file: target URL, the csrf token
value sent, and the language tag. -/
structure PostRequest where
  url : String
  csrf_token : Option String
  lang : String
deriving Repr, DecidableEq

/-- The response to the upload POST: its status code and the record URL it
redirected to. -/
structure Response where
  status_code : Nat
  url : String
deriving Repr, DecidableEq

/-- Derivation of the submission endpoint (source lines 78-80): append
"/submit" unless the problem URL already ends with it. -/
def derive_post_url (problem_url : String) : String :=
  if pyEndsWith problem_url "/submit" then problem_url else problem_url ++ "/submit"

/-- upload_file (source lines 77-91).  fetchPage maps a URL to the fetched
document; post performs the POST.  Returns the response or the
AssertionError message "Invalid problem" when the csrf-token input is
absent, together with the list of POST requests issued. -/
def upload_file (fetchPage : String → ProblemPage) (post : PostRequest → Response)
    (problem_url : String) (lang : String) : Except String Response × List PostRequest :=
  let post_url := derive_post_url problem_url
  match (fetchPage post_url).csrfInput with
  | none => (Except.error "Invalid problem", [])
  | some node =>
    let req : PostRequest := { url := post_url, csrf_token := node.value, lang := lang }
    (Except.ok (post req), [req])

/-- The collaborators submit works against: the page fetcher and poster of
upload_file, the successive record-page fetches keyed by record URL, and the
detail-page fetcher. -/
structure SubmitEnv where
  fetchPage : String → ProblemPage
  post : PostRequest → Response
  fetchSeq : String → List ResultDoc
  fetchDetail : String → DetailDoc

/-- What one run of submit did: the returned boolean or the raised error,
the POST requests issued, whether the evaluation record was polled at all,
and how many sleep units the poll spent. -/
structure SubmitOutcome where
  result : Except String Bool
  posts : List PostRequest
  polled : Bool
  sleeps : Nat
deriving Repr

/-- submit (source lines 170-235), with the presentation-only parameters
dropped (they only gate logging).  Upload, assert status code 200 with the
message "Upload error with code {code}", return True at once under no_wait,
otherwise poll and aggregate and return whether the overall status is
"Accepted".  none models the unbounded poll never terminating. -/
def submit (env : SubmitEnv) (problem_url : String) (lang : String) (no_wait : Bool) :
    Option SubmitOutcome :=
  match upload_file env.fetchPage env.post problem_url lang with
  | (Except.error e, posts) =>
    some { result := Except.error e, posts := posts, polled := false, sleeps := 0 }
  | (Except.ok resp, posts) =>
    if resp.status_code = 200 then
      if no_wait then
        some { result := Except.ok true, posts := posts, polled := false, sleeps := 0 }
      else
        match get_status (env.fetchSeq resp.url) env.fetchDetail with
        | none => none
        | some (Except.error e, k) =>
          some { result := Except.error e, posts := posts, polled := true, sleeps := k }
        | some (Except.ok agg, k) =>
          some { result := Except.ok (agg.record.status == "Accepted"), posts := posts,
                 polled := true, sleeps := k }
    else
      some { result := Except.error ("Upload error with code " ++ toString resp.status_code),
             posts := posts, polled := false, sleeps := 0 }

/-
Concrete fixtures used by the witnesses and counterexamples below.
-/

/-- A detail-page fetcher whose pages carry no compiler-text block. -/
def fdEmpty : String → DetailDoc := fun _ => { compilerTexts := [] }

/-- A detail-page fetcher whose pages carry exactly the three diagnostic
blocks. -/
def fdThree : String → DetailDoc := fun _ => { compilerTexts := ["e\n", " o", "a"] }

/-- A case row whose time cell already carries a spaced unit string. -/
def rowC1c : CaseRow :=
  { statusCell := { spans := ["deco", "Wrong Answer"], link := none },
    timeText := "12 ms", memoryText := "3 KiB" }

/-- A terminal result document holding the row above. -/
def docC1 : ResultDoc :=
  { overallStatus := " Wrong Answer ", summaries := ["0 / 100", "12ms", "1 MiB"],
    compilerText := some " ", caseBody := some [rowC1c] }

/-- The value aggregate returns on docC1. -/
def aggC1 : AggResult :=
  { record := { status := "Wrong Answer", accepted_count := 0, score := "0 / 100",
                total_time := "12 ms", peak_memory := "1 MiB",
                details := [{ status := "Wrong Answer", extra_info := "",
                              time_cost := "12  ms", memory_cost := "3 KiB",
                              stderr := "", out := "", ans := "" }],
                compiler_text := "" },
    fetched := [] }

/-- A case row whose time cell carries the unit with no space. -/
def rowC1w : CaseRow :=
  { statusCell := { spans := ["deco", "Wrong Answer"], link := none },
    timeText := " 12ms ", memoryText := "3 KiB" }

/-- The Detail built from rowC1w. -/
def detailC1w : Detail :=
  { status := "Wrong Answer", extra_info := "", time_cost := "12 ms",
    memory_cost := "3 KiB", stderr := "", out := "", ans := "" }

/-- A terminal result document with no compiler-text block. -/
def docC2 : ResultDoc :=
  { overallStatus := "Compile Error", summaries := ["0 / 100", "0ms", "0 Byte"],
    compilerText := none, caseBody := none }

/-- A case row carrying a secondary detail link and two status spans. -/
def rowC3 : CaseRow :=
  { statusCell := { spans := ["deco", "Runtime Error"], link := some "/d/7" },
    timeText := "1ms", memoryText := "2 KiB" }

/-- A case row with a secondary detail link but only one status span. -/
def rowC3a : CaseRow :=
  { statusCell := { spans := ["solo"], link := some "/d/7" },
    timeText := "1ms", memoryText := "2 KiB" }

/-- A problem-page fetcher returning a page with a csrf-token input. -/
def fpToken : String → ProblemPage :=
  fun _ => { csrfInput := some { value := some "tok" } }

/-- A problem-page fetcher returning a page with no csrf-token input. -/
def fpNoToken : String → ProblemPage := fun _ => { csrfInput := none }

/-- A poster answering status 201. -/
def post201 : PostRequest → Response := fun _ => { status_code := 201, url := "rec" }

/-- A poster answering status 500. -/
def post500 : PostRequest → Response := fun _ => { status_code := 500, url := "rec" }

/-- A poster answering status 200. -/
def post200 : PostRequest → Response := fun _ => { status_code := 200, url := "rec" }

/-- An environment whose upload POST is answered with status 201. -/
def envC4 : SubmitEnv :=
  { fetchPage := fpToken, post := post201, fetchSeq := fun _ => [], fetchDetail := fdEmpty }

/-- An environment whose upload POST is answered with status 500. -/
def envC4w : SubmitEnv :=
  { fetchPage := fpToken, post := post500, fetchSeq := fun _ => [], fetchDetail := fdEmpty }

/-- The POST request submit issues against fpToken for problem URL
"https://x/p/1". -/
def reqX : PostRequest :=
  { url := "https://x/p/1/submit", csrf_token := some "tok", lang := "cc" }

/-- An accepted case row without a detail link. -/
def rowAcc : CaseRow :=
  { statusCell := { spans := ["deco", " Accepted "], link := none },
    timeText := "1ms", memoryText := "180 KiB" }

/-- A rejected case row without a detail link. -/
def rowWA : CaseRow :=
  { statusCell := { spans := ["deco", "Wrong Answer"], link := none },
    timeText := "2ms", memoryText := "200 KiB" }

/-- A terminal result document with one accepted and one rejected row. -/
def docC5 : ResultDoc :=
  { overallStatus := "Wrong Answer", summaries := ["50 / 100", "3ms", "200 KiB"],
    compilerText := some "", caseBody := some [rowAcc, rowWA] }

/-- The value aggregate returns on docC5. -/
def aggC5 : AggResult :=
  { record := { status := "Wrong Answer", accepted_count := 1, score := "50 / 100",
                total_time := "3 ms", peak_memory := "200 KiB",
                details := [{ status := "Accepted", extra_info := "", time_cost := "1 ms",
                              memory_cost := "180 KiB", stderr := "", out := "", ans := "" },
                            { status := "Wrong Answer", extra_info := "", time_cost := "2 ms",
                              memory_cost := "200 KiB", stderr := "", out := "", ans := "" }],
                compiler_text := "" },
    fetched := [] }

/-- A record document still in progress. -/
def docRun : ResultDoc :=
  { overallStatus := " Running ", summaries := [], compilerText := none, caseBody := none }

/-- A terminal accepted record document. -/
def docAcc : ResultDoc :=
  { overallStatus := " Accepted ", summaries := ["100 / 100", "3ms", "200 KiB"],
    compilerText := some "", caseBody := some [rowAcc] }

/-- The value aggregate returns on docAcc. -/
def aggAcc : AggResult :=
  { record := { status := "Accepted", accepted_count := 1, score := "100 / 100",
                total_time := "3 ms", peak_memory := "200 KiB",
                details := [{ status := "Accepted", extra_info := "", time_cost := "1 ms",
                              memory_cost := "180 KiB", stderr := "", out := "", ans := "" }],
                compiler_text := "" },
    fetched := [] }

/-- A terminal result document whose case-table container is absent. -/
def docC7 : ResultDoc :=
  { overallStatus := " Compile Error ", summaries := ["0 / 100", "0ms", "0 Byte"],
    compilerText := some "boom\n", caseBody := none }

/-- A case row with a detail link whose third status span is whitespace. -/
def rowC8 : CaseRow :=
  { statusCell := { spans := ["deco", "Runtime Error", "   "], link := some "/d/9" },
    timeText := "1ms", memoryText := "2 KiB" }

/-- The Detail built from rowC8 against fdThree. -/
def dC8 : Detail :=
  { status := "Runtime Error", extra_info := "", time_cost := "1 ms",
    memory_cost := "2 KiB", stderr := "e", out := "o", ans := "a" }

/-- A case row with a detail link and a non-blank third status span. -/
def rowC8b : CaseRow :=
  { statusCell := { spans := ["deco", "Runtime Error", " sig 11 "], link := some "/d/9" },
    timeText := "1ms", memoryText := "2 KiB" }

/-- An environment answering 200 whose record page never turns terminal. -/
def envC10 : SubmitEnv :=
  { fetchPage := fpToken, post := post200, fetchSeq := fun _ => [docRun], fetchDetail := fdEmpty }

/-- Replacing "ms" in a list that ends in "ms" and is otherwise free of the
pattern inserts exactly the one space. -/
theorem replaceMsCore_append_ms (v : List Char) (hv : msFree v = true) :
    replaceMsCore (v ++ ['m', 's']) = v ++ [' ', 'm', 's'] := by
  induction v with
  | nil => decide
  | cons c rest ih =>
    cases rest with
    | nil =>
      have hne : ¬(c = 'm' ∧ ('m' : Char) = 's') := by
        rintro ⟨-, h2⟩
        exact absurd h2 (by decide)
      simp only [List.cons_append, List.nil_append, replaceMsCore, if_neg hne]
      simp
    | cons c2 rest2 =>
      simp only [msFree] at hv
      by_cases h : c = 'm' ∧ c2 = 's'
      · rw [if_pos h] at hv
        exact absurd hv (by decide)
      · rw [if_neg h] at hv
        simp only [List.cons_append, replaceMsCore, if_neg h]
        exact congrArg (List.cons c) (ih hv)

/-- Appending " ms" to a list not ending in a space yields a string passing
endsInOneSpaceMs. -/
theorem endsInOneSpaceMs_append (v : List Char) (h : v.getLast? ≠ some ' ') :
    endsInOneSpaceMs (v ++ [' ', 'm', 's']).asString = true := by
  have h1 : ((v ++ [' ', 'm', 's']).asString).toList.reverse = 's' :: 'm' :: ' ' :: v.reverse := by
    show (v ++ [' ', 'm', 's']).reverse = _
    rw [List.reverse_append]
    rfl
  unfold endsInOneSpaceMs
  rw [h1]
  simp [List.head?_reverse, h]

/-- The time_cost stored by any successful row is the stripped cell text
with every "ms" given a leading space. -/
theorem processRow_time_cost (fd : String → DetailDoc) (row : CaseRow) (d : Detail)
    (us : List String) (h : processRow fd row = Except.ok (d, us)) :
    d.time_cost = pyReplaceMs (pyStrip row.timeText) := by
  unfold processRow at h
  cases hs : row.statusCell.spans.get? 1 with
  | none => rw [hs] at h; simp at h
  | some s1 =>
    rw [hs] at h
    dsimp only [] at h
    cases hl : row.statusCell.link with
    | none =>
      rw [hl] at h
      dsimp only [] at h
      simp only [Except.ok.injEq, Prod.mk.injEq] at h
      obtain ⟨h1, -⟩ := h
      rw [← h1]
    | some href =>
      rw [hl] at h
      dsimp only [] at h
      cases h0 : (fd (baseOrigin ++ href)).compilerTexts.get? 0 with
      | none => rw [h0] at h; simp at h
      | some t0 =>
        rw [h0] at h
        cases h1 : (fd (baseOrigin ++ href)).compilerTexts.get? 1 with
        | none => rw [h1] at h; simp at h
        | some t1 =>
          rw [h1] at h
          cases h2 : (fd (baseOrigin ++ href)).compilerTexts.get? 2 with
          | none => rw [h2] at h; simp at h
          | some t2 =>
            rw [h2] at h
            dsimp only [] at h
            simp only [Except.ok.injEq, Prod.mk.injEq] at h
            obtain ⟨he, -⟩ := h
            rw [← he]

/-- The polling loop stops at the first terminal document: the returned
index points at that document, every earlier fetch was in progress, and the
index equals the number of unit sleeps executed. -/
theorem pollLoop_first_terminal (seq : List ResultDoc) (d : ResultDoc) (k : Nat)
    (h : pollLoop seq = some (d, k)) :
    seq.get? k = some d ∧ inProgress (pyStrip d.overallStatus) = false ∧
      ∀ j, j < k → ∃ dj, seq.get? j = some dj ∧ inProgress (pyStrip dj.overallStatus) = true := by
  induction seq generalizing d k with
  | nil => simp [pollLoop] at h
  | cons hd tl ih =>
    rw [pollLoop] at h
    by_cases hp : inProgress (pyStrip hd.overallStatus) = true
    · rw [if_pos hp] at h
      cases hpl : pollLoop tl with
      | none => rw [hpl] at h; simp at h
      | some p =>
        obtain ⟨dd, kk⟩ := p
        rw [hpl] at h
        simp only [Option.map_some', Option.some.injEq, Prod.mk.injEq] at h
        obtain ⟨h1, h2⟩ := h
        subst h1
        subst h2
        obtain ⟨g1, g2, g3⟩ := ih dd kk hpl
        refine ⟨g1, g2, ?_⟩
        intro j hj
        cases j with
        | zero => exact ⟨hd, rfl, hp⟩
        | succ jj =>
          obtain ⟨dj, hdj1, hdj2⟩ := g3 jj (by omega)
          exact ⟨dj, by simpa using hdj1, hdj2⟩
    · rw [if_neg hp] at h
      simp only [Option.some.injEq, Prod.mk.injEq] at h
      obtain ⟨h1, h2⟩ := h
      subst h1
      subst h2
      refine ⟨rfl, by simpa using hp, ?_⟩
      intro j hj
      exact absurd hj (Nat.not_lt_zero j)

/-- The accepted tally of the row loop counts exactly the rows whose Detail
status is the literal "Accepted". -/
theorem aggregateRows_count (fd : String → DetailDoc) (rows : List CaseRow)
    (ds : List Detail) (cnt : Nat) (us : List String)
    (h : aggregateRows fd rows = Except.ok (ds, cnt, us)) :
    cnt = ds.countP (fun d => d.status == "Accepted") := by
  induction rows generalizing ds cnt us with
  | nil =>
    rw [aggregateRows] at h
    simp only [Except.ok.injEq, Prod.mk.injEq] at h
    obtain ⟨h1, h2, -⟩ := h
    subst h1
    subst h2
    simp
  | cons r rs ih =>
    rw [aggregateRows] at h
    cases hr : processRow fd r with
    | error e => rw [hr] at h; simp at h
    | ok p =>
      obtain ⟨d, us1⟩ := p
      rw [hr] at h
      dsimp only [] at h
      cases hrs : aggregateRows fd rs with
      | error e => rw [hrs] at h; simp at h
      | ok q =>
        obtain ⟨ds2, cnt2, us2⟩ := q
        rw [hrs] at h
        dsimp only [] at h
        simp only [Except.ok.injEq, Prod.mk.injEq] at h
        obtain ⟨h1, h2, -⟩ := h
        subst h1
        subst h2
        rw [List.countP_cons]
        rw [ih ds2 cnt2 us2 hrs]
        by_cases hd : (d.status == "Accepted") = true
        · simp [hd, Nat.add_comm]
        · simp [hd]

/-- Inversion of a successful aggregation: the Record fields come from a
successful run of the row loop. -/
theorem aggregate_ok_inv (fd : String → DetailDoc) (doc : ResultDoc) (agg : AggResult)
    (h : aggregate fd doc = Except.ok agg) :
    ∃ ds cnt us, aggregateRows fd (doc.caseBody.getD []) = Except.ok (ds, cnt, us) ∧
      agg.record.details = ds ∧ agg.record.accepted_count = cnt := by
  unfold aggregate at h
  cases hs1 : doc.summaries.get? 1 with
  | none => rw [hs1] at h; simp at h
  | some s1 =>
    rw [hs1] at h
    dsimp only [] at h
    cases hct : doc.compilerText with
    | none => rw [hct] at h; simp at h
    | some ct =>
      rw [hct] at h
      dsimp only [] at h
      cases hrows : aggregateRows fd (doc.caseBody.getD []) with
      | error e => rw [hrows] at h; simp at h
      | ok q =>
        obtain ⟨ds, cnt, us⟩ := q
        rw [hrows] at h
        dsimp only [] at h
        cases hs0 : doc.summaries.get? 0 with
        | none => rw [hs0] at h; simp at h
        | some s0 =>
          rw [hs0] at h
          cases hs2 : doc.summaries.get? 2 with
          | none => rw [hs2] at h; simp at h
          | some s2 =>
            rw [hs2] at h
            dsimp only [] at h
            simp only [Except.ok.injEq] at h
            subst h
            exact ⟨ds, cnt, us, rfl, rfl, rfl⟩

/-- C7: aggregation of a terminal document whose case-table container is
absent returns a Record whose details sequence is empty, and raises no
error. -/
theorem c7_absent_table (fd : String → DetailDoc) (doc : ResultDoc)
    (s0 s1 s2 ct : String)
    (h0 : doc.summaries.get? 0 = some s0) (h1 : doc.summaries.get? 1 = some s1)
    (h2 : doc.summaries.get? 2 = some s2) (hct : doc.compilerText = some ct)
    (hb : doc.caseBody = none) :
    aggregate fd doc = Except.ok
      { record := { status := pyStrip doc.overallStatus, accepted_count := 0, score := s0,
                    total_time := pyReplaceMs s1, peak_memory := s2, details := [],
                    compiler_text := pyStrip ct }, fetched := [] } := by
  unfold aggregate
  rw [h1]
  dsimp only []
  rw [hct]
  dsimp only []
  rw [hb]
  dsimp only [Option.getD]
  rw [aggregateRows]
  dsimp only []
  rw [h0, h2]

/-- C7 witness: c7_absent_table applied to the concrete compile-error
document docC7. -/
theorem c7_witness :
    aggregate fdEmpty docC7 = Except.ok
      { record := { status := pyStrip docC7.overallStatus, accepted_count := 0,
                    score := "0 / 100", total_time := pyReplaceMs "0ms",
                    peak_memory := "0 Byte", details := [], compiler_text := pyStrip "boom\n" },
        fetched := [] } :=
  c7_absent_table fdEmpty docC7 "0 / 100" "0ms" "0 Byte" "boom\n" rfl rfl rfl rfl rfl

/-- C5: for every Record built by the aggregation step, accepted_count
equals the number of detail entries whose status is exactly the string
"Accepted" (no case folding: the comparison is string equality). -/
theorem c5_accepted_count (fd : String → DetailDoc) (doc : ResultDoc) (agg : AggResult)
    (h : aggregate fd doc = Except.ok agg) :
    agg.record.accepted_count =
      agg.record.details.countP (fun d => d.status == "Accepted") := by
  obtain ⟨ds, cnt, us, hrows, hds, hcnt⟩ := aggregate_ok_inv fd doc agg h
  rw [hcnt, hds]
  exact aggregateRows_count fd _ ds cnt us hrows

/-- C5 witness: c5_accepted_count on a concrete document with one accepted
and one rejected row. -/
theorem c5_witness :
    aggC5.record.accepted_count =
      aggC5.record.details.countP (fun d => d.status == "Accepted") :=
  c5_accepted_count fdEmpty docC5 aggC5 rfl

/-- C6: get_status hands the aggregation step only the first fetched
document whose stripped overall status lies outside the in-progress set
Waiting/Compiling/Fetched/Running; the returned count k is both the index
of that document in the fetch sequence and the number of unit sleeps (one
sleep of one time unit per in-progress fetch), and every document fetched
before it was in progress, so aggregation is never applied to an
in-progress document. -/
theorem c6_poll_first_terminal (seq : List ResultDoc) (fd : String → DetailDoc)
    (ex : Except String AggResult) (k : Nat)
    (h : get_status seq fd = some (ex, k)) :
    ∃ d, seq.get? k = some d ∧ inProgress (pyStrip d.overallStatus) = false ∧
      ex = aggregate fd d ∧
      ∀ j, j < k → ∃ dj, seq.get? j = some dj ∧ inProgress (pyStrip dj.overallStatus) = true := by
  unfold get_status at h
  cases hpl : pollLoop seq with
  | none => rw [hpl] at h; simp at h
  | some p =>
    obtain ⟨d, kk⟩ := p
    rw [hpl] at h
    simp only [Option.map_some', Option.some.injEq, Prod.mk.injEq] at h
    obtain ⟨h1, h2⟩ := h
    subst h2
    obtain ⟨g1, g2, g3⟩ := pollLoop_first_terminal seq d kk hpl
    exact ⟨d, g1, g2, h1.symm, g3⟩

/-- C6 witness: c6_poll_first_terminal on a fetch sequence that shows
Running once and then Accepted. -/
theorem c6_witness :
    ∃ d, [docRun, docAcc].get? 1 = some d ∧ inProgress (pyStrip d.overallStatus) = false ∧
      Except.ok aggAcc = aggregate fdEmpty d ∧
      ∀ j, j < 1 → ∃ dj, [docRun, docAcc].get? j = some dj ∧
        inProgress (pyStrip dj.overallStatus) = true :=
  c6_poll_first_terminal [docRun, docAcc] fdEmpty (Except.ok aggAcc) 1 rfl

/-- C2 counterexample: on a terminal document lacking the compiler-text
block, aggregation raises (select_one returns None and get_text fails)
instead of returning a Record with empty compiler_text. -/
theorem c2_counterexample : aggregate fdEmpty docC2 = Except.error "AttributeError" := rfl

/-- C2 (amended): when the compiler-text block is absent from the terminal
document, the aggregation step of get_status fails with an attribute
error; it never returns a Record whose compiler_text defaults to the empty
string. -/
theorem c2_compiler_text_absent (fd : String → DetailDoc) (doc : ResultDoc) (s1 : String)
    (h1 : doc.summaries.get? 1 = some s1) (hc : doc.compilerText = none) :
    aggregate fd doc = Except.error "AttributeError" := by
  unfold aggregate
  rw [h1]
  dsimp only []
  rw [hc]

/-- C2 witness: c2_compiler_text_absent on the concrete document docC2. -/
theorem c2_witness : aggregate fdEmpty docC2 = Except.error "AttributeError" :=
  c2_compiler_text_absent fdEmpty docC2 "0ms" rfl rfl

/-- C1 counterexample: aggregation of docC1, whose case row's time cell
already reads "12 ms" with its own separating space, stores the
elapsed-time string "12  ms" with two separating spaces, so the
one-separating-space property fails. -/
theorem c1_counterexample :
    aggregate fdEmpty docC1 = Except.ok aggC1 ∧
      aggC1.record.details.map (fun d => d.time_cost) = ["12  ms"] ∧
      endsInOneSpaceMs "12  ms" = false :=
  ⟨rfl, by decide, by decide⟩

/-- C1 (amended): for every case row accepted by the aggregation step whose
stripped time-cell text is a prefix followed immediately by "ms", where the
prefix contains no "ms" occurrence of its own and does not end in a space,
the stored elapsed-time string is that prefix followed by " ms" and ends in
" ms" with exactly one separating space. -/
theorem c1_time_unit_normalization (fd : String → DetailDoc) (row : CaseRow)
    (d : Detail) (us : List String) (v : List Char)
    (hp : processRow fd row = Except.ok (d, us))
    (hv : (pyStrip row.timeText).toList = v ++ ['m', 's'])
    (hms : msFree v = true) (hlast : v.getLast? ≠ some ' ') :
    d.time_cost.toList = v ++ [' ', 'm', 's'] ∧ endsInOneSpaceMs d.time_cost = true := by
  have ht : d.time_cost = (replaceMsCore (v ++ ['m', 's'])).asString := by
    rw [processRow_time_cost fd row d us hp]
    unfold pyReplaceMs
    rw [hv]
  rw [ht, replaceMsCore_append_ms v hms]
  exact ⟨rfl, endsInOneSpaceMs_append v hlast⟩

/-- C1 witness: c1_time_unit_normalization on the concrete row whose time
cell reads " 12ms ". -/
theorem c1_witness :
    detailC1w.time_cost.toList = ['1', '2'] ++ [' ', 'm', 's'] ∧
      endsInOneSpaceMs detailC1w.time_cost = true :=
  c1_time_unit_normalization fdEmpty rowC1w detailC1w [] ['1', '2'] rfl rfl (by decide) (by decide)

/-- C3 counterexample: a case row whose status cell carries a secondary
link but whose fetched detail page holds no pre.compiler-text block makes
the aggregation step raise an index error instead of storing empty
diagnostic fields. -/
theorem c3_counterexample : processRow fdEmpty rowC3 = Except.error "IndexError" := rfl

/-- C3 (amended): for a case row whose status cell carries a secondary
detail link, a status cell with exactly two inline spans yields empty
qualifier text without error; but when the fetched detail page carries
fewer than three diagnostic blocks, or the status cell has fewer than two
spans, aggregation fails with an index error instead of storing empty
values. -/
theorem c3_optional_absence (fd : String → DetailDoc) (row : CaseRow) (href : String)
    (hl : row.statusCell.link = some href) :
    (row.statusCell.spans.get? 1 = none → processRow fd row = Except.error "IndexError") ∧
    (∀ s1, row.statusCell.spans.get? 1 = some s1 →
      (fd (baseOrigin ++ href)).compilerTexts.length < 3 →
      processRow fd row = Except.error "IndexError") ∧
    (∀ s1 t0 t1 t2, row.statusCell.spans.length = 2 →
      row.statusCell.spans.get? 1 = some s1 →
      (fd (baseOrigin ++ href)).compilerTexts.get? 0 = some t0 →
      (fd (baseOrigin ++ href)).compilerTexts.get? 1 = some t1 →
      (fd (baseOrigin ++ href)).compilerTexts.get? 2 = some t2 →
      ∃ d, processRow fd row = Except.ok (d, [baseOrigin ++ href]) ∧ d.extra_info = "") := by
  refine ⟨?_, ?_, ?_⟩
  · intro h
    unfold processRow
    rw [h]
  · intro s1 hs1 hlen
    unfold processRow
    rw [hs1]
    dsimp only []
    rw [hl]
    dsimp only []
    have h2 : (fd (baseOrigin ++ href)).compilerTexts.get? 2 = none := by
      rw [List.get?_eq_none]
      omega
    cases g0 : (fd (baseOrigin ++ href)).compilerTexts.get? 0 with
    | none => rfl
    | some t0 =>
      cases g1 : (fd (baseOrigin ++ href)).compilerTexts.get? 1 with
      | none => rfl
      | some t1 => rw [h2]
  · intro s1 t0 t1 t2 hlen2 hs1 g0 g1 g2
    unfold processRow
    rw [hs1]
    dsimp only []
    rw [hl]
    dsimp only []
    rw [g0, g1, g2]
    dsimp only []
    rw [hlen2]
    rw [if_neg (by omega : ¬ (3 : Nat) ≤ 2)]
    rw [if_neg (by simp : ¬ ("" : String) ≠ "")]
    exact ⟨_, rfl, rfl⟩

/-- C3 witness: the three branches of c3_optional_absence at concrete rows:
one status span only, a linked detail page with no blocks, and a linked
detail page with the three blocks. -/
theorem c3_witness :
    processRow fdEmpty rowC3a = Except.error "IndexError" ∧
    processRow fdEmpty rowC3 = Except.error "IndexError" ∧
    ∃ d, processRow fdThree rowC3 = Except.ok (d, [baseOrigin ++ "/d/7"]) ∧ d.extra_info = "" :=
  ⟨(c3_optional_absence fdEmpty rowC3a "/d/7" rfl).1 rfl,
   (c3_optional_absence fdEmpty rowC3 "/d/7" rfl).2.1 "Runtime Error" rfl (by decide),
   (c3_optional_absence fdThree rowC3 "/d/7" rfl).2.2 "Runtime Error" "e\n" " o" "a" rfl rfl rfl rfl rfl⟩

/-- C8 counterexample: a linked case row whose third inline span is blank
stores empty qualifier text, not the third span's trimmed text prefixed
with one space, so the stated qualifier rule fails. -/
theorem c8_counterexample :
    processRow fdThree rowC8 = Except.ok (dC8, ["https://joj.sjtu.edu.cn/d/9"]) ∧
      3 ≤ rowC8.statusCell.spans.length ∧
      dC8.extra_info ≠ " " ++ pyStrip ((rowC8.statusCell.spans.get? 2).getD "") :=
  ⟨rfl, by decide, by decide⟩

/-- C8 (amended): for a case row with no secondary link, the stored Detail
has empty stderr, output, expected-output and qualifier text and no detail
URL is fetched; for a row with a secondary link, the link is resolved
against the judge's base origin, that one URL is fetched, the three
diagnostic blocks are taken from the detail page in order (stderr, program
output, expected output, each stripped), and the qualifier text equals the
trimmed third inline span prefixed with one space when at least three spans
exist and that trimmed text is non-empty, otherwise it is empty. -/
theorem c8_detail_link (fd : String → DetailDoc) (row : CaseRow) (s1 : String)
    (hs1 : row.statusCell.spans.get? 1 = some s1) :
    (row.statusCell.link = none → processRow fd row = Except.ok
        ({ status := pyStrip s1, extra_info := "",
           time_cost := pyReplaceMs (pyStrip row.timeText),
           memory_cost := pyStrip row.memoryText, stderr := "", out := "", ans := "" }, [])) ∧
    (∀ href t0 t1 t2, row.statusCell.link = some href →
      (fd (baseOrigin ++ href)).compilerTexts.get? 0 = some t0 →
      (fd (baseOrigin ++ href)).compilerTexts.get? 1 = some t1 →
      (fd (baseOrigin ++ href)).compilerTexts.get? 2 = some t2 →
      processRow fd row = Except.ok
        ({ status := pyStrip s1,
           extra_info :=
             if 3 ≤ row.statusCell.spans.length ∧
                 pyStrip ((row.statusCell.spans.get? 2).getD "") ≠ ""
             then " " ++ pyStrip ((row.statusCell.spans.get? 2).getD "") else "",
           time_cost := pyReplaceMs (pyStrip row.timeText),
           memory_cost := pyStrip row.memoryText,
           stderr := pyStrip t0, out := pyStrip t1, ans := pyStrip t2 },
         [baseOrigin ++ href])) := by
  constructor
  · intro hl
    unfold processRow
    rw [hs1]
    dsimp only []
    rw [hl]
  · intro href t0 t1 t2 hl g0 g1 g2
    unfold processRow
    rw [hs1]
    dsimp only []
    rw [hl]
    dsimp only []
    rw [g0, g1, g2]
    dsimp only []
    by_cases hn : 3 ≤ row.statusCell.spans.length
    · rw [if_pos hn]
      by_cases he : pyStrip ((row.statusCell.spans.get? 2).getD "") ≠ ""
      · rw [if_pos he, if_pos ⟨hn, he⟩]
      · rw [if_neg he, if_neg (fun hA => he hA.2), not_not.mp he]
    · rw [if_neg hn]
      rw [if_neg (by simp : ¬ ("" : String) ≠ ""), if_neg (fun hA => hn hA.1)]

/-- C8 witness: both branches of c8_detail_link at concrete rows, one
without a link and one with a link and a non-blank third span. -/
theorem c8_witness :
    processRow fdThree rowWA = Except.ok
      ({ status := pyStrip "Wrong Answer", extra_info := "",
         time_cost := pyReplaceMs (pyStrip rowWA.timeText),
         memory_cost := pyStrip rowWA.memoryText, stderr := "", out := "", ans := "" }, []) ∧
    processRow fdThree rowC8b = Except.ok
      ({ status := pyStrip "Runtime Error",
         extra_info :=
           if 3 ≤ rowC8b.statusCell.spans.length ∧
               pyStrip ((rowC8b.statusCell.spans.get? 2).getD "") ≠ ""
           then " " ++ pyStrip ((rowC8b.statusCell.spans.get? 2).getD "") else "",
         time_cost := pyReplaceMs (pyStrip rowC8b.timeText),
         memory_cost := pyStrip rowC8b.memoryText,
         stderr := pyStrip "e\n", out := pyStrip " o", ans := pyStrip "a" },
       [baseOrigin ++ "/d/9"]) :=
  ⟨(c8_detail_link fdThree rowWA "Wrong Answer" rfl).1 rfl,
   (c8_detail_link fdThree rowC8b "Runtime Error" rfl).2 "/d/9" "e\n" " o" "a" rfl rfl rfl rfl⟩

/-- C4 counterexample: an upload POST answered with status 201 — a 2xx
status — makes submit raise the upload error and skip polling, so the
orchestrator does not proceed on every 2xx response. -/
theorem c4_counterexample :
    submit envC4 "https://x/p/1" "cc" false =
      some { result := Except.error "Upload error with code 201", posts := [reqX],
             polled := false, sleeps := 0 } := rfl

/-- C4 (amended): the upload step of submit fails with a hard error
carrying the numeric status code exactly when the POST response's status
differs from 200; on a 200 response the orchestrator proceeds (returning
at once in no-wait mode, otherwise polling), and on failure no polling
occurs. -/
theorem c4_upload_gate (env : SubmitEnv) (u lang : String) (node : InputNode)
    (req : PostRequest) (resp : Response)
    (hpage : (env.fetchPage (derive_post_url u)).csrfInput = some node)
    (hreq : req = { url := derive_post_url u, csrf_token := node.value, lang := lang })
    (hresp : resp = env.post req) :
    (resp.status_code ≠ 200 → ∀ nw, submit env u lang nw =
        some { result := Except.error ("Upload error with code " ++ toString resp.status_code),
               posts := [req], polled := false, sleeps := 0 }) ∧
    (resp.status_code = 200 → submit env u lang true =
        some { result := Except.ok true, posts := [req], polled := false, sleeps := 0 }) ∧
    (resp.status_code = 200 → ∀ o, submit env u lang false = some o → o.polled = true) := by
  subst hreq
  subst hresp
  refine ⟨?_, ?_, ?_⟩
  · intro h nw
    unfold submit upload_file
    dsimp only []
    rw [hpage]
    dsimp only []
    rw [if_neg h]
  · intro h
    unfold submit upload_file
    dsimp only []
    rw [hpage]
    dsimp only []
    rw [if_pos h]
    rfl
  · intro h o ho
    unfold submit upload_file at ho
    dsimp only [] at ho
    rw [hpage] at ho
    dsimp only [] at ho
    rw [if_pos h] at ho
    rw [if_neg (by decide : ¬(false = true))] at ho
    cases hg : get_status (env.fetchSeq (env.post
        { url := derive_post_url u, csrf_token := node.value, lang := lang }).url)
        env.fetchDetail with
    | none => rw [hg] at ho; simp at ho
    | some p =>
      obtain ⟨ex, k⟩ := p
      rw [hg] at ho
      cases ex with
      | error e =>
        dsimp only [] at ho
        simp only [Option.some.injEq] at ho
        rw [← ho]
      | ok agg =>
        dsimp only [] at ho
        simp only [Option.some.injEq] at ho
        rw [← ho]

/-- C4 witness: the failure branch of c4_upload_gate at a concrete
environment whose upload POST is answered with status 500: the error
carries the code and no polling occurs. -/
theorem c4_witness :
    submit envC4w "https://x/p/1" "cc" false =
      some { result := Except.error ("Upload error with code " ++ toString (500 : Nat)),
             posts := [reqX], polled := false, sleeps := 0 } :=
  (c4_upload_gate envC4w "https://x/p/1" "cc" { value := some "tok" } reqX
    { status_code := 500, url := "rec" } rfl rfl rfl).1 (by decide) false

/-- C9: if the fetched submission-endpoint document carries no csrf-token
input, upload_file fails with the hard error "Invalid problem" and issues
no POST request; and the submission endpoint appends the fixed "/submit"
segment to the problem URL exactly when that suffix is not already
present. -/
theorem c9_csrf_and_endpoint (fetchPage : String → ProblemPage) (post : PostRequest → Response)
    (u lang : String) :
    ((fetchPage (derive_post_url u)).csrfInput = none →
      upload_file fetchPage post u lang = (Except.error "Invalid problem", [])) ∧
    (pyEndsWith u "/submit" = true → derive_post_url u = u) ∧
    (pyEndsWith u "/submit" = false → derive_post_url u = u ++ "/submit") := by
  refine ⟨?_, ?_, ?_⟩
  · intro h
    unfold upload_file
    dsimp only []
    rw [h]
  · intro h
    unfold derive_post_url
    rw [if_pos h]
  · intro h
    unfold derive_post_url
    rw [if_neg (by simp [h])]

/-- C9 witness: c9_csrf_and_endpoint on a concrete token-less page and on
concrete URLs with and without the "/submit" suffix. -/
theorem c9_witness :
    upload_file fpNoToken post200 "https://x/p/1" "cc" = (Except.error "Invalid problem", []) ∧
    derive_post_url "https://x/p/1/submit" = "https://x/p/1/submit" ∧
    derive_post_url "https://x/p/1" = "https://x/p/1" ++ "/submit" :=
  ⟨(c9_csrf_and_endpoint fpNoToken post200 "https://x/p/1" "cc").1 rfl,
   (c9_csrf_and_endpoint fpNoToken post200 "https://x/p/1/submit" "cc").2.1 (by decide),
   (c9_csrf_and_endpoint fpNoToken post200 "https://x/p/1" "cc").2.2 (by decide)⟩

/-- C10: whenever submit is invoked with the no-wait flag and the upload
response has status 200, it returns True at once: the evaluation record is
never fetched (polled is false for every environment, whatever verdict the
record would show), so the returned boolean reflects no verdict. -/
theorem c10_no_wait_true (env : SubmitEnv) (u lang : String) (node : InputNode)
    (req : PostRequest)
    (hpage : (env.fetchPage (derive_post_url u)).csrfInput = some node)
    (hreq : req = { url := derive_post_url u, csrf_token := node.value, lang := lang })
    (h200 : (env.post req).status_code = 200) :
    submit env u lang true =
      some { result := Except.ok true, posts := [req], polled := false, sleeps := 0 } := by
  subst hreq
  unfold submit upload_file
  dsimp only []
  rw [hpage]
  dsimp only []
  rw [if_pos h200]
  rfl

/-- C10 witness: c10_no_wait_true on a concrete environment whose record
page never turns terminal, so any poll would never return: submit still
returns True at once under no-wait. -/
theorem c10_witness :
    submit envC10 "https://x/p/1" "cc" true =
      some { result := Except.ok true, posts := [reqX], polled := false, sleeps := 0 } :=
  c10_no_wait_true envC10 "https://x/p/1" "cc" { value := some "tok" } reqX rfl rfl rfl
